import Mathlib

/-!
Verification of the netbird relay server coordinator (relay/server/server.go)
and the nameservers HTTP handler shipped alongside it, against the design
spec. Shallow embedding: Go structs become Lean structures, the few
effectful operations become pure functions returning a trace of the
observable effects together with the returned value, and behaviour of
collaborators that only appear through their call sites (bind outcomes,
listener close errors, the account manager, the URL parse routine) is
supplied as explicit parameters.
-/

/-- Go error values, kept opaque as strings. `none` is a nil error. -/
abbrev Err := String

/-- Embedding of `errors.Join` on two arguments: nil when both are nil,
otherwise an error wrapping every non-nil argument in order. -/
def errorsJoin : Option Err → Option Err → Option Err
  | none, none => none
  | some e, none => some e
  | none, some e => some e
  | some e1, some e2 => some (e1 ++ "\n" ++ e2)

/-- Transport security material (`*tls.Config`), kept opaque. -/
abbrev TLSMaterial := String

/-- `Config` from server.go: one bind address and optional TLS material. -/
structure Config where
  Address : String
  TLSConfig : Option TLSMaterial
deriving Repr, DecidableEq

/-- The streamed (WebSocket) listener as constructed in `Server.Listen`:
`&ws.Listener{Address: cfg.Address, TLSConfig: cfg.TLSConfig}`. -/
structure WSListener where
  Address : String
  TLSConfig : Option TLSMaterial
deriving Repr, DecidableEq

/-- The message-oriented (UDP) listener as constructed in `Server.Listen`:
`udp.NewListener(cfg.Address)`. Its constructor takes only the address;
the type carries no transport-security material at all. -/
structure UDPListener where
  Address : String
deriving Repr, DecidableEq

/-- `Server` from server.go. The relay engine instance is represented by
an identity token (a Nat); the listener fields are `none` until `Listen`
assigns them (Go nil pointers). -/
structure Server where
  relay : Nat
  wSListener : Option WSListener
  uDPListener : Option UDPListener
deriving Repr, DecidableEq

/-- `NewServer`: fresh server holding a newly created relay engine and
nil listener fields. `relayId` is the identity of the `NewRelay()` result. -/
def NewServer (relayId : Nat) : Server :=
  { relay := relayId, wSListener := none, uDPListener := none }

/-- Environment of one `Server.Listen` call: the bind outcome each
listener goroutine would write into its error variable (`wslErr`,
`udpLErr`). `none` is a successful bind. -/
structure BindEnv where
  wsErr : Option Err
  udpErr : Option Err
deriving Repr, DecidableEq

/-- Scheduling of the two bind goroutines relative to the main task of
`Server.Listen`: whether each goroutine has finished (written its error
variable) by the time the main task evaluates `errors.Join`. The source
never calls `wg.Wait()` (the WaitGroup is `Add(2)`-ed and `Done` in each
goroutine but never waited on), so no combination is excluded. -/
structure Schedule where
  wsDoneBeforeJoin : Bool
  udpDoneBeforeJoin : Bool
deriving Repr, DecidableEq

/-- Everything observable about one `Server.Listen` call: the post-state
of the server, the accept callback (identified by the relay instance it
belongs to) handed to each listener, the listener `Close` calls issued by
the body, and the returned error. -/
structure ListenOutcome where
  server : Server
  wsAccept : Nat
  udpAccept : Nat
  listenerCloses : List String
  result : Option Err
deriving Repr, DecidableEq

/-- Shallow embedding of `Server.Listen` (server.go). The main task
assigns `r.wSListener` from the config, spawns a goroutine running
`r.wSListener.Listen(r.relay.Accept)`, assigns `r.uDPListener =
udp.NewListener(cfg.Address)`, spawns the second goroutine with the same
accept callback, and then evaluates `errors.Join(wslErr, udpLErr)` and
returns — without `wg.Wait()`, so each goroutine contribution is visible
only if that goroutine was scheduled before the join (`sched`). The body
contains no `Close` call on either listener, hence `listenerCloses = []`. -/
def Server.listen (s : Server) (cfg : Config) (env : BindEnv) (sched : Schedule) :
    ListenOutcome :=
  { server := { s with
      wSListener := some { Address := cfg.Address, TLSConfig := cfg.TLSConfig },
      uDPListener := some { Address := cfg.Address } },
    wsAccept := s.relay,
    udpAccept := s.relay,
    listenerCloses := [],
    result := errorsJoin (if sched.wsDoneBeforeJoin then env.wsErr else none)
      (if sched.udpDoneBeforeJoin then env.udpErr else none) }

/-- The shutdown drain deadline: `context.WithTimeout(context.Background(),
30*time.Second)` in `Server.Close`, in seconds. -/
def shutdownDeadline : Nat := 30

/-- Modelled from the spec: the relay engine (`Relay`, whose source is not
in the provided material — only its call sites `NewRelay`, `relay.Accept`
and `relay.Close(ctx)` are) drains tracked sessions on `Close(ctx)`,
waiting for them to finish closing but only up to the deadline of the
context it is given; sessions still open at the deadline are force-closed
and the call returns. The elapsed time is therefore the smaller of the
time the sessions need and the deadline. -/
def relayDrainElapsed (sessionDrainTimes : List Nat) : Nat :=
  min (sessionDrainTimes.foldr max 0) shutdownDeadline

/-- One observable step of `Server.Close`. -/
inductive CloseEvent where
  | wsListenerClose
  | udpListenerClose
  | relayClose (relayId : Nat) (deadline : Nat)
deriving Repr, DecidableEq

/-- Environment of one `Server.Close` call: the error each listener
`Close` would return and, for each open session, the time it would need
to finish closing (an unresponsive peer is a session with an arbitrarily
large drain time). -/
structure CloseEnv where
  wErr : Option Err
  uErr : Option Err
  sessionDrainTimes : List Nat
deriving Repr, DecidableEq

/-- Everything observable about one `Server.Close` call: the ordered
trace of effects, the returned error, and the elapsed time (listener
`Close` calls do not block, per the listener contract). -/
structure CloseOutcome where
  trace : List CloseEvent
  result : Option Err
  elapsed : Nat
deriving Repr, DecidableEq

/-- Shallow embedding of `Server.Close` (server.go): close the WS
listener if non-nil, then the UDP listener if non-nil, then hand the
relay engine a context with a 30-second deadline and drain; return
`errors.Join(wErr, uErr)`. The relay drain outcome is not part of the
returned error (`r.relay.Close(ctx)` has no inspected return value). -/
def Server.close (s : Server) (env : CloseEnv) : CloseOutcome :=
  { trace := (if s.wSListener.isSome then [CloseEvent.wsListenerClose] else [])
      ++ (if s.uDPListener.isSome then [CloseEvent.udpListenerClose] else [])
      ++ [CloseEvent.relayClose s.relay shutdownDeadline],
    result := errorsJoin (if s.wSListener.isSome then env.wErr else none)
      (if s.uDPListener.isSome then env.uErr else none),
    elapsed := relayDrainElapsed env.sessionDrainTimes }

/-- Claim C1 (code bug). The claim says `Listen` returns only once both
listeners have bound or failed and its result joins both bind errors.
The source sets up a WaitGroup (`wg.Add(2)`, `wg.Done()` in each
goroutine) but never calls `wg.Wait()`, so the schedule in which neither
goroutine has run when `errors.Join` is evaluated is reachable: with a
failing WS bind, `Listen` returns nil even though joining the actual
outcomes would report the bind error. -/
theorem C1_bind_error_lost_without_wait :
    ((NewServer 0).listen { Address := "10.0.0.1:443", TLSConfig := none }
        { wsErr := some "failed to bind ws server", udpErr := none }
        { wsDoneBeforeJoin := false, udpDoneBeforeJoin := false }).result = none
    ∧ errorsJoin (some "failed to bind ws server") none
        = some "failed to bind ws server" :=
  ⟨rfl, rfl⟩

/-- Claim C2: `Server.Close` is two-phase and ordered — its effect trace
is some prefix consisting only of listener `Close` calls, followed by the
relay drain, and that prefix contains a `Close` call for every bound
listener: no session drain happens before the `Close` calls on the bound
listeners have all been issued. -/
theorem C2_close_listeners_before_drain (s : Server) (env : CloseEnv) :
    ∃ pre, (s.close env).trace = pre ++ [CloseEvent.relayClose s.relay shutdownDeadline]
      ∧ (∀ e ∈ pre, e = CloseEvent.wsListenerClose ∨ e = CloseEvent.udpListenerClose)
      ∧ (s.wSListener.isSome = true → CloseEvent.wsListenerClose ∈ pre)
      ∧ (s.uDPListener.isSome = true → CloseEvent.udpListenerClose ∈ pre) := by
  refine ⟨(if s.wSListener.isSome then [CloseEvent.wsListenerClose] else [])
      ++ (if s.uDPListener.isSome then [CloseEvent.udpListenerClose] else []), ?_, ?_, ?_, ?_⟩
  · simp [Server.close]
  · intro e he
    rcases List.mem_append.mp he with h | h <;> split at h <;> simp_all
  · intro h
    simp [h]
  · intro h
    simp [h]

theorem C2_close_listeners_before_drain_witness :
    ∃ pre, (Server.close
        { relay := 0, wSListener := some { Address := "10.0.0.1:443", TLSConfig := none },
          uDPListener := some { Address := "10.0.0.1:443" } }
        { wErr := none, uErr := none, sessionDrainTimes := [] }).trace
        = pre ++ [CloseEvent.relayClose 0 shutdownDeadline]
      ∧ CloseEvent.wsListenerClose ∈ pre ∧ CloseEvent.udpListenerClose ∈ pre := by
  obtain ⟨pre, h1, _, h3, h4⟩ := C2_close_listeners_before_drain
    { relay := 0, wSListener := some { Address := "10.0.0.1:443", TLSConfig := none },
      uDPListener := some { Address := "10.0.0.1:443" } }
    { wErr := none, uErr := none, sessionDrainTimes := [] }
  exact ⟨pre, h1, h3 rfl, h4 rfl⟩

/-- Claim C3: the drain of Phase 2 is bounded by a fixed deadline of 30
time units — `Server.Close` hands the relay a context expiring after
exactly `shutdownDeadline = 30`, and the elapsed time of `Close` is at
most that deadline whatever the open sessions need. -/
theorem C3_close_deadline_bounded (s : Server) (env : CloseEnv) :
    shutdownDeadline = 30
    ∧ CloseEvent.relayClose s.relay shutdownDeadline ∈ (s.close env).trace
    ∧ (s.close env).elapsed ≤ shutdownDeadline := by
  refine ⟨rfl, ?_, Nat.min_le_right _ _⟩
  simp [Server.close]

/-- Claim C4: the error returned by `Server.Close` on a server with both
listeners bound is exactly `errors.Join` of the two listener `Close`
errors; the drain outcome (the session drain times, hence also a drain
timeout) is universally quantified and absent from the result. -/
theorem C4_close_error_only_from_listeners (relayId : Nat) (wl : WSListener)
    (ul : UDPListener) (w u : Option Err) (ts : List Nat) :
    (Server.close { relay := relayId, wSListener := some wl, uDPListener := some ul }
      { wErr := w, uErr := u, sessionDrainTimes := ts }).result = errorsJoin w u :=
  rfl

/-- Claim C5: `Server.Listen` does not fail-fast — the post-state of the
server after a run in which one bind failed equals the post-state of a
run in which nothing failed (whatever the schedules), both listener
fields are bound, and the body issues no listener `Close` at all. -/
theorem C5_listen_no_fail_fast (s : Server) (cfg : Config) (e : Err)
    (sched sched2 : Schedule) :
    ((s.listen cfg { wsErr := some e, udpErr := none } sched).server
        = (s.listen cfg { wsErr := none, udpErr := none } sched2).server)
    ∧ (s.listen cfg { wsErr := some e, udpErr := none } sched).server.uDPListener
        = some { Address := cfg.Address }
    ∧ (s.listen cfg { wsErr := some e, udpErr := none } sched).listenerCloses = []
    ∧ ((s.listen cfg { wsErr := none, udpErr := some e } sched).server
        = (s.listen cfg { wsErr := none, udpErr := none } sched2).server)
    ∧ (s.listen cfg { wsErr := none, udpErr := some e } sched).server.wSListener
        = some { Address := cfg.Address, TLSConfig := cfg.TLSConfig } :=
  ⟨rfl, rfl, rfl, rfl, rfl⟩

/-- Claim C6: `Server.Listen` builds both listeners with the single
configured bind address, and the TLS material goes to the streamed WS
listener and to no other — the UDP listener is fully determined by the
address alone (its type has no TLS field). -/
theorem C6_listen_shared_address_tls_on_ws (s : Server) (cfg : Config)
    (env : BindEnv) (sched : Schedule) :
    (s.listen cfg env sched).server.wSListener
        = some { Address := cfg.Address, TLSConfig := cfg.TLSConfig }
    ∧ (s.listen cfg env sched).server.uDPListener = some { Address := cfg.Address } :=
  ⟨rfl, rfl⟩

/-- Claim C7: a server owns exactly one relay engine instance for its
lifetime — the relay created in `NewServer` is the one whose `Accept` is
handed to both listeners in `Listen`, the relay field is unchanged by
`Listen`, and `Close` drains that same instance. -/
theorem C7_single_relay_instance (relayId : Nat) (cfg : Config) (env : BindEnv)
    (sched : Schedule) (cenv : CloseEnv) :
    ((NewServer relayId).listen cfg env sched).wsAccept = relayId
    ∧ ((NewServer relayId).listen cfg env sched).udpAccept = relayId
    ∧ ((NewServer relayId).listen cfg env sched).server.relay = relayId
    ∧ CloseEvent.relayClose relayId shutdownDeadline
        ∈ ((((NewServer relayId).listen cfg env sched).server).close cenv).trace := by
  refine ⟨rfl, rfl, rfl, ?_⟩
  simp [Server.close, Server.listen, NewServer]

/-- Claim C8: `Server.Close` on a server whose `Listen` was never invoked
(both listener fields nil) skips both listener `Close` calls, still runs
the relay drain, and returns nil. -/
theorem C8_close_without_listen (relayId : Nat) (env : CloseEnv) :
    ((NewServer relayId).close env).trace
        = [CloseEvent.relayClose relayId shutdownDeadline]
    ∧ ((NewServer relayId).close env).result = none :=
  ⟨rfl, rfl⟩

/-- A parsed nameserver (`nbdns.NameServer`), kept opaque. -/
abbrev NameServer := String

/-- `api.Nameserver`: the wire representation of one nameserver entry. -/
structure ApiNameserver where
  NsType : String
  Ip : String
  Port : Nat
deriving Repr, DecidableEq

/-- The URL `toServerNSList` builds for one entry:
`fmt.Sprintf("%s://%s:%d", apiNS.NsType, apiNS.Ip, apiNS.Port)`. -/
def nsURL (a : ApiNameserver) : String :=
  a.NsType ++ "://" ++ a.Ip ++ ":" ++ toString a.Port

/-- Whether an `Except` result is a success. -/
def isOkB {α : Type} : Except Err α → Bool
  | Except.ok _ => true
  | Except.error _ => false

/-- Shallow embedding of `toServerNSList` (nameservers handler). The loop
structure is translated from the source: walk the input front to back,
parse each entry with `nbdns.ParseNameServerURL` applied to `nsURL`, and
on the first failure return `(nil, err)` — here `Except.error err`;
otherwise append. `parse` stands for `nbdns.ParseNameServerURL`, whose
source is not in the provided material, so it is an arbitrary parameter. -/
def toServerNSList (parse : String → Except Err NameServer) :
    List ApiNameserver → Except Err (List NameServer)
  | [] => Except.ok []
  | a :: rest =>
    match parse (nsURL a) with
    | Except.error e => Except.error e
    | Except.ok v =>
      match toServerNSList parse rest with
      | Except.error e => Except.error e
      | Except.ok tail => Except.ok (v :: tail)

theorem toServerNSList_ok (parse : String → Except Err NameServer) :
    ∀ l : List ApiNameserver, (∀ a ∈ l, isOkB (parse (nsURL a)) = true) →
      ∃ out, toServerNSList parse l = Except.ok out
        ∧ List.Forall₂ (fun a v => parse (nsURL a) = Except.ok v) l out := by
  intro l
  induction l with
  | nil => exact fun _ => ⟨[], rfl, List.Forall₂.nil⟩
  | cons a rest ih =>
    intro h
    have ha := h a (List.mem_cons_self a rest)
    cases hp : parse (nsURL a) with
    | error e => rw [hp] at ha; simp [isOkB] at ha
    | ok v =>
      obtain ⟨out, hout, hfa⟩ := ih (fun b hb => h b (List.mem_cons_of_mem a hb))
      exact ⟨v :: out, by simp [toServerNSList, hp, hout], List.Forall₂.cons hp hfa⟩

theorem toServerNSList_firstError (parse : String → Except Err NameServer) :
    ∀ (pre : List ApiNameserver) (bad : ApiNameserver) (post : List ApiNameserver)
      (e : Err), (∀ a ∈ pre, isOkB (parse (nsURL a)) = true) →
      parse (nsURL bad) = Except.error e →
      toServerNSList parse (pre ++ bad :: post) = Except.error e := by
  intro pre
  induction pre with
  | nil => intro bad post e _ hbad; simp [toServerNSList, hbad]
  | cons p pre2 ih =>
    intro bad post e h hbad
    have hp := h p (List.mem_cons_self p pre2)
    cases hpp : parse (nsURL p) with
    | error e2 => rw [hpp] at hp; simp [isOkB] at hp
    | ok v =>
      have hrest := ih bad post e (fun b hb => h b (List.mem_cons_of_mem p hb)) hbad
      simp [toServerNSList, hpp, hrest]

/-- Claim C9: `toServerNSList` is all-or-nothing. If every entry parses,
it returns a list with exactly one converted entry per input entry, in
input order (`Forall₂` relates them pointwise in order). If any entry
fails to parse, it returns no list and the error of the first failing
entry (the input split as `pre ++ bad :: post` with every entry of `pre`
parsing and `bad` failing). -/
theorem C9_toServerNSList_all_or_nothing (parse : String → Except Err NameServer)
    (l : List ApiNameserver) :
    ((∀ a ∈ l, isOkB (parse (nsURL a)) = true) →
      ∃ out, toServerNSList parse l = Except.ok out
        ∧ List.Forall₂ (fun a v => parse (nsURL a) = Except.ok v) l out)
    ∧ (∀ pre bad post e, l = pre ++ bad :: post →
        (∀ a ∈ pre, isOkB (parse (nsURL a)) = true) →
        parse (nsURL bad) = Except.error e →
        toServerNSList parse l = Except.error e) := by
  refine ⟨toServerNSList_ok parse l, ?_⟩
  intro pre bad post e hl h1 h2
  subst hl
  exact toServerNSList_firstError parse pre bad post e h1 h2

/-- A concrete parse behaviour for exercising C9: accepts exactly one URL. -/
def parseOneURL : String → Except Err NameServer := fun s =>
  if s = "udp://9.9.9.9:53" then Except.ok "udp:9.9.9.9:53"
  else Except.error "invalid NS"

theorem C9_toServerNSList_witness :
    (∃ out, toServerNSList parseOneURL [⟨"udp", "9.9.9.9", 53⟩] = Except.ok out
      ∧ List.Forall₂ (fun a v => parseOneURL (nsURL a) = Except.ok v)
          [⟨"udp", "9.9.9.9", 53⟩] out)
    ∧ toServerNSList parseOneURL
        [⟨"udp", "9.9.9.9", 53⟩, ⟨"tcp", "9.9.9.9", 53⟩] = Except.error "invalid NS" := by
  constructor
  · exact (C9_toServerNSList_all_or_nothing parseOneURL _).1 (by decide)
  · exact (C9_toServerNSList_all_or_nothing parseOneURL _).2
      [⟨"udp", "9.9.9.9", 53⟩] ⟨"tcp", "9.9.9.9", 53⟩ [] "invalid NS" rfl
      (by decide) (by rfl)

/-- JWT claims as extracted by the claims extractor. -/
structure Claims where
  AccountId : String
  UserId : String
deriving Repr, DecidableEq

/-- `nbdns.NameServerGroup` as assembled by the update handler. -/
structure NameServerGroup where
  ID : String
  Name : String
  Description : String
  Primary : Bool
  Domains : List String
  NameServers : List NameServer
  Groups : List String
  Enabled : Bool
  SearchDomainsEnabled : Bool
deriving Repr, DecidableEq

/-- The decoded JSON body of an update request
(`api.PutApiDnsNameserversNsgroupIdJSONRequestBody`). -/
structure UpdateReqBody where
  Name : String
  Description : String
  Primary : Bool
  Domains : List String
  Nameservers : List ApiNameserver
  Groups : List String
  Enabled : Bool
  SearchDomainsEnabled : Bool
deriving Repr, DecidableEq

/-- One call into the account manager (the data store): the store is read
or mutated exactly when one of these operations is issued. -/
inductive ManagerOp where
  | saveNameServerGroup (accountId userId : String) (g : NameServerGroup)
  | deleteNameServerGroup (accountId nsGroupId userId : String)
  | getNameServerGroup (accountId userId nsGroupId : String)
deriving Repr, DecidableEq

/-- The response a handler writes: an error response carrying a status
error (`util.WriteError`), a plain bad-request response
(`util.WriteErrorResponse`), or a success JSON object. -/
inductive HandlerOut where
  | writeError (msg : String)
  | writeErrorResponse (msg : String)
  | writeJSON
deriving Repr, DecidableEq

/-- Shallow embedding of `NameserversHandler.UpdateNameserverGroup`:
guard on an empty `nsgroupId` path variable, decode the JSON body
(`body = none` models a decode failure), convert the nameserver list,
build the updated group, and call `SaveNameServerGroup` on the account
manager (`saveResult` gives that call's outcome). Returns the list of
account-manager calls issued together with the written response. -/
def UpdateNameserverGroup (parse : String → Except Err NameServer)
    (nsGroupID : String) (body : Option UpdateReqBody) (claims : Claims)
    (saveResult : NameServerGroup → Option Err) : List ManagerOp × HandlerOut :=
  if nsGroupID.length == 0 then
    ([], HandlerOut.writeError "invalid nameserver group ID")
  else
    match body with
    | none => ([], HandlerOut.writeErrorResponse "couldnt parse JSON request")
    | some req =>
      match toServerNSList parse req.Nameservers with
      | Except.error _ => ([], HandlerOut.writeError "invalid NS servers format")
      | Except.ok nsList =>
        let updatedNSGroup : NameServerGroup :=
          { ID := nsGroupID, Name := req.Name, Description := req.Description,
            Primary := req.Primary, Domains := req.Domains, NameServers := nsList,
            Groups := req.Groups, Enabled := req.Enabled,
            SearchDomainsEnabled := req.SearchDomainsEnabled }
        match saveResult updatedNSGroup with
        | some e =>
          ([ManagerOp.saveNameServerGroup claims.AccountId claims.UserId updatedNSGroup],
            HandlerOut.writeError e)
        | none =>
          ([ManagerOp.saveNameServerGroup claims.AccountId claims.UserId updatedNSGroup],
            HandlerOut.writeJSON)

/-- Shallow embedding of `NameserversHandler.DeleteNameserverGroup`:
guard on an empty `nsgroupId`, then call `DeleteNameServerGroup` on the
account manager (`deleteResult` gives that call's outcome). -/
def DeleteNameserverGroup (nsGroupID : String) (claims : Claims)
    (deleteResult : Option Err) : List ManagerOp × HandlerOut :=
  if nsGroupID.length == 0 then
    ([], HandlerOut.writeError "invalid nameserver group ID")
  else
    match deleteResult with
    | some e =>
      ([ManagerOp.deleteNameServerGroup claims.AccountId nsGroupID claims.UserId],
        HandlerOut.writeError e)
    | none =>
      ([ManagerOp.deleteNameServerGroup claims.AccountId nsGroupID claims.UserId],
        HandlerOut.writeJSON)

/-- Shallow embedding of `NameserversHandler.GetNameserverGroup`: guard
on an empty `nsgroupId`, then call `GetNameServerGroup` on the account
manager (`getResult` gives that call's outcome). -/
def GetNameserverGroup (nsGroupID : String) (claims : Claims)
    (getResult : Except Err NameServerGroup) : List ManagerOp × HandlerOut :=
  if nsGroupID.length == 0 then
    ([], HandlerOut.writeError "invalid nameserver group ID")
  else
    match getResult with
    | Except.error e =>
      ([ManagerOp.getNameServerGroup claims.AccountId claims.UserId nsGroupID],
        HandlerOut.writeError e)
    | Except.ok _ =>
      ([ManagerOp.getNameServerGroup claims.AccountId claims.UserId nsGroupID],
        HandlerOut.writeJSON)

/-- Claim C10: for every request whose `nsgroupId` path variable is the
empty string, each of the Update, Delete and Get handlers writes an
InvalidArgument error response ("invalid nameserver group ID") and
issues no account-manager operation at all — whatever the body, claims,
parse behaviour and account-manager behaviour. -/
theorem C10_empty_nsgroup_id_guard (parse : String → Except Err NameServer)
    (body : Option UpdateReqBody) (claims : Claims)
    (saveResult : NameServerGroup → Option Err) (deleteResult : Option Err)
    (getResult : Except Err NameServerGroup) :
    UpdateNameserverGroup parse "" body claims saveResult
        = ([], HandlerOut.writeError "invalid nameserver group ID")
    ∧ DeleteNameserverGroup "" claims deleteResult
        = ([], HandlerOut.writeError "invalid nameserver group ID")
    ∧ GetNameserverGroup "" claims getResult
        = ([], HandlerOut.writeError "invalid nameserver group ID") :=
  ⟨rfl, rfl, rfl⟩
